import Mathlib

/-!
# Verification of the UTC-instant datetime model (actions.life)

Shallow embedding of the datetime-migration code documented in
src/IMPLEMENTATION_GUIDE.md and src/QUICK_REFERENCE.md: the helper
functions toUTCTimestamp and fromUTCTimestamp, the corrected
notification predicate shouldNotifyNow (functions/checkNotify.js, NEW
version), the dual-write logic of Task.create and Task.update, and the
invariants claimed for them.

The JavaScript delegates wall-clock/instant conversion to the Luxon
library.  The embedding models Luxon explicitly:

* instants are integer milliseconds since the Unix epoch (Luxon's ts);
* civil-date arithmetic is the proleptic Gregorian calendar, embedded
  with the standard days-from-civil / civil-from-days algorithms and
  proved to be mutually inverse;
* a timezone is a function from instants to UTC-offset minutes; the
  modelled fragment of the IANA database contains UTC, Asia/Tokyo and
  America/New_York (with the US DST rule in force since 2007: DST from
  the second Sunday of March 07:00 UTC to the first Sunday of November
  06:00 UTC, extended to all years);
* local-to-UTC resolution follows Luxon's fixOffset algorithm
  (luxon src/datetime.js); the provisional offset guess that seeds it
  is the zone's offset at the current time (Settings.now()), which is
  why toUTCTimestamp takes the current instant as an extra argument;
* DateTime.fromFormat validity (format match, month/day/hour/minute
  ranges, real calendar dates) and the empty-string sentinels of the
  JavaScript are modelled as in the source.
-/

namespace ActionsLife

/-- Days since 1970-01-01 of the civil date (y, m, d) in the proleptic
Gregorian calendar (the standard days-from-civil algorithm; Lean's
Int division floors for positive divisors). -/
def daysFromCivil (y m d : Int) : Int :=
  let y' := if m ≤ 2 then y - 1 else y
  let era := y' / 400
  let yoe := y' - era * 400
  let mp := (m + 9) % 12
  let doy := (153 * mp + 2) / 5 + d - 1
  let doe := yoe * 365 + yoe / 4 - yoe / 100 + doy
  era * 146097 + doe - 719468

/-- Civil date (y, m, d) of a day count since 1970-01-01 (the standard
civil-from-days algorithm). -/
def civilFromDays (n : Int) : Int × Int × Int :=
  let z := n + 719468
  let era := z / 146097
  let doe := z - era * 146097
  let yoe := (doe - doe / 1460 + doe / 36524 - doe / 146096) / 365
  let y := yoe + era * 400
  let doy := doe - (365 * yoe + yoe / 4 - yoe / 100)
  let mp := (5 * doy + 2) / 153
  let d := doy - (153 * mp + 2) / 5 + 1
  let m := if mp < 10 then mp + 3 else mp - 9
  (if m ≤ 2 then y + 1 else y, m, d)

/-- Number of days in month m of year y (proleptic Gregorian). -/
def daysInMonth (y m : Int) : Int :=
  if m = 2 then (if y % 4 = 0 ∧ (y % 100 ≠ 0 ∨ y % 400 = 0) then 29 else 28)
  else if m = 4 ∨ m = 6 ∨ m = 9 ∨ m = 11 then 30
  else 31

/-- A valid civil date: month and day in range. -/
def ValidCivil (y m d : Int) : Prop :=
  1 ≤ m ∧ m ≤ 12 ∧ 1 ≤ d ∧ d ≤ daysInMonth y m

instance (y m d : Int) : Decidable (ValidCivil y m d) := by
  unfold ValidCivil; infer_instance

/-- Recovery of the year of era from the day of era (the inner step of
the civil-from-days algorithm). -/
theorem yoe_recover (yoe doy doe : Int)
    (h1 : 0 ≤ yoe) (h2 : yoe ≤ 399) (h3 : 0 ≤ doy) (h4 : doy ≤ 365)
    (h5 : doy = 365 → yoe % 4 = 3 ∧ (yoe % 100 ≠ 99 ∨ yoe = 399))
    (hdoe : doe = 365 * yoe + yoe / 4 - yoe / 100 + doy) :
    (doe - doe / 1460 + doe / 36524 - doe / 146096) / 365 = yoe := by
  have hw : doe / 1460 = yoe / 4 + (365 * (yoe % 4) + yoe / 4 - yoe / 100 + doy) / 1460 := by
    omega
  have hs : doe / 36524
      = yoe / 100 + (365 * (yoe % 100) + (yoe % 100) / 4 + doy) / 36524 := by
    omega
  have hwq : (365 * (yoe % 4) + yoe / 4 - yoe / 100 + doy) / 1460 = 0 ∨
      ((365 * (yoe % 4) + yoe / 4 - yoe / 100 + doy) / 1460 = 1 ∧
        1460 ≤ 365 * (yoe % 4) + yoe / 4 - yoe / 100 + doy) := by
    omega
  have hsq : (365 * (yoe % 100) + (yoe % 100) / 4 + doy) / 36524 = 0 ∨
      ((365 * (yoe % 100) + (yoe % 100) / 4 + doy) / 36524 = 1 ∧
        365 * (yoe % 100) + (yoe % 100) / 4 + doy = 36524) := by
    omega
  have hdq : doe / 146096 = 0 ∨ (doe / 146096 = 1 ∧ doe = 146096) := by
    omega
  by_cases h365 : doy = 365
  · obtain ⟨ha, hb⟩ := h5 h365
    rcases hb with hb | hb <;> rcases hwq with hwq | ⟨hwq, hw2⟩ <;>
      rcases hsq with hsq | ⟨hsq, hs2⟩ <;> rcases hdq with hdq | ⟨hdq, hd2⟩ <;> omega
  · rcases hwq with hwq | ⟨hwq, hw2⟩ <;> rcases hsq with hsq | ⟨hsq, hs2⟩ <;>
      rcases hdq with hdq | ⟨hdq, hd2⟩ <;> omega

/-- civilFromDays evaluated on an era/year-of-era/day-of-year
decomposition of a day count. -/
theorem civilFromDays_eq (era yoe doy : Int)
    (h1 : 0 ≤ yoe) (h2 : yoe ≤ 399) (h3 : 0 ≤ doy) (h4 : doy ≤ 365)
    (h5 : doy = 365 → yoe % 4 = 3 ∧ (yoe % 100 ≠ 99 ∨ yoe = 399)) :
    civilFromDays (146097 * era + (365 * yoe + yoe / 4 - yoe / 100 + doy) - 719468)
      = (let mp := (5 * doy + 2) / 153
         let dd := doy - (153 * mp + 2) / 5 + 1
         let mm := if mp < 10 then mp + 3 else mp - 9
         (if mm ≤ 2 then era * 400 + yoe + 1 else era * 400 + yoe, mm, dd)) := by
  have hera : (146097 * era + (365 * yoe + yoe / 4 - yoe / 100 + doy) - 719468 + 719468)
      / 146097 = era := by omega
  have hdoe : (146097 * era + (365 * yoe + yoe / 4 - yoe / 100 + doy) - 719468 + 719468)
      - era * 146097 = 365 * yoe + yoe / 4 - yoe / 100 + doy := by omega
  have hyoe := yoe_recover yoe doy (365 * yoe + yoe / 4 - yoe / 100 + doy)
    h1 h2 h3 h4 h5 rfl
  simp only [civilFromDays, hera, hdoe, hyoe]
  have hdoy : 365 * yoe + yoe / 4 - yoe / 100 + doy - (365 * yoe + yoe / 4 - yoe / 100)
      = doy := by omega
  rw [hdoy]
  simp only [add_comm]


set_option maxHeartbeats 2000000 in
/-- The civil-from-days algorithm inverts days-from-civil on valid
civil dates. -/
theorem civilFromDays_daysFromCivil (y m d : Int) (h : ValidCivil y m d) :
    civilFromDays (daysFromCivil y m d) = (y, m, d) := by
  obtain ⟨h1, h2, h3, h4⟩ := h
  unfold daysInMonth at h4
  interval_cases m <;> norm_num at h4
  · have harg : daysFromCivil y 1 d
        = 146097 * ((y - 1) / 400) + (365 * ((y - 1) - (y - 1) / 400 * 400)
          + ((y - 1) - (y - 1) / 400 * 400) / 4 - ((y - 1) - (y - 1) / 400 * 400) / 100
          + (306 + d - 1)) - 719468 := by
      simp only [daysFromCivil]; omega
    rw [harg, civilFromDays_eq ((y - 1) / 400) ((y - 1) - (y - 1) / 400 * 400) (306 + d - 1)
      (by omega) (by omega) (by omega) (by omega) (by omega)]
    simp only [Prod.mk.injEq]
    split_ifs <;> refine ⟨?_, ?_, ?_⟩ <;> omega
  · have harg : daysFromCivil y 2 d
        = 146097 * ((y - 1) / 400) + (365 * ((y - 1) - (y - 1) / 400 * 400)
          + ((y - 1) - (y - 1) / 400 * 400) / 4 - ((y - 1) - (y - 1) / 400 * 400) / 100
          + (337 + d - 1)) - 719468 := by
      simp only [daysFromCivil]; omega
    have hleap : d ≤ 28 ∨ (d ≤ 29 ∧ y % 4 = 0 ∧ (y % 100 ≠ 0 ∨ y % 400 = 0)) := by
      split at h4
      · rename_i hc; right; exact ⟨h4, by omega⟩
      · left; exact h4
    rw [harg, civilFromDays_eq ((y - 1) / 400) ((y - 1) - (y - 1) / 400 * 400) (337 + d - 1)
      (by omega) (by omega) (by omega) (by omega) (by omega)]
    simp only [Prod.mk.injEq]
    split_ifs <;> refine ⟨?_, ?_, ?_⟩ <;> omega
  · have harg : daysFromCivil y 3 d
        = 146097 * (y / 400) + (365 * (y - y / 400 * 400)
          + (y - y / 400 * 400) / 4 - (y - y / 400 * 400) / 100
          + (0 + d - 1)) - 719468 := by
      simp only [daysFromCivil]; omega
    rw [harg, civilFromDays_eq (y / 400) (y - y / 400 * 400) (0 + d - 1)
      (by omega) (by omega) (by omega) (by omega) (by omega)]
    simp only [Prod.mk.injEq]
    split_ifs <;> refine ⟨?_, ?_, ?_⟩ <;> omega
  · have harg : daysFromCivil y 4 d
        = 146097 * (y / 400) + (365 * (y - y / 400 * 400)
          + (y - y / 400 * 400) / 4 - (y - y / 400 * 400) / 100
          + (31 + d - 1)) - 719468 := by
      simp only [daysFromCivil]; omega
    rw [harg, civilFromDays_eq (y / 400) (y - y / 400 * 400) (31 + d - 1)
      (by omega) (by omega) (by omega) (by omega) (by omega)]
    simp only [Prod.mk.injEq]
    split_ifs <;> refine ⟨?_, ?_, ?_⟩ <;> omega
  · have harg : daysFromCivil y 5 d
        = 146097 * (y / 400) + (365 * (y - y / 400 * 400)
          + (y - y / 400 * 400) / 4 - (y - y / 400 * 400) / 100
          + (61 + d - 1)) - 719468 := by
      simp only [daysFromCivil]; omega
    rw [harg, civilFromDays_eq (y / 400) (y - y / 400 * 400) (61 + d - 1)
      (by omega) (by omega) (by omega) (by omega) (by omega)]
    simp only [Prod.mk.injEq]
    split_ifs <;> refine ⟨?_, ?_, ?_⟩ <;> omega
  · have harg : daysFromCivil y 6 d
        = 146097 * (y / 400) + (365 * (y - y / 400 * 400)
          + (y - y / 400 * 400) / 4 - (y - y / 400 * 400) / 100
          + (92 + d - 1)) - 719468 := by
      simp only [daysFromCivil]; omega
    rw [harg, civilFromDays_eq (y / 400) (y - y / 400 * 400) (92 + d - 1)
      (by omega) (by omega) (by omega) (by omega) (by omega)]
    simp only [Prod.mk.injEq]
    split_ifs <;> refine ⟨?_, ?_, ?_⟩ <;> omega
  · have harg : daysFromCivil y 7 d
        = 146097 * (y / 400) + (365 * (y - y / 400 * 400)
          + (y - y / 400 * 400) / 4 - (y - y / 400 * 400) / 100
          + (122 + d - 1)) - 719468 := by
      simp only [daysFromCivil]; omega
    rw [harg, civilFromDays_eq (y / 400) (y - y / 400 * 400) (122 + d - 1)
      (by omega) (by omega) (by omega) (by omega) (by omega)]
    simp only [Prod.mk.injEq]
    split_ifs <;> refine ⟨?_, ?_, ?_⟩ <;> omega
  · have harg : daysFromCivil y 8 d
        = 146097 * (y / 400) + (365 * (y - y / 400 * 400)
          + (y - y / 400 * 400) / 4 - (y - y / 400 * 400) / 100
          + (153 + d - 1)) - 719468 := by
      simp only [daysFromCivil]; omega
    rw [harg, civilFromDays_eq (y / 400) (y - y / 400 * 400) (153 + d - 1)
      (by omega) (by omega) (by omega) (by omega) (by omega)]
    simp only [Prod.mk.injEq]
    split_ifs <;> refine ⟨?_, ?_, ?_⟩ <;> omega
  · have harg : daysFromCivil y 9 d
        = 146097 * (y / 400) + (365 * (y - y / 400 * 400)
          + (y - y / 400 * 400) / 4 - (y - y / 400 * 400) / 100
          + (184 + d - 1)) - 719468 := by
      simp only [daysFromCivil]; omega
    rw [harg, civilFromDays_eq (y / 400) (y - y / 400 * 400) (184 + d - 1)
      (by omega) (by omega) (by omega) (by omega) (by omega)]
    simp only [Prod.mk.injEq]
    split_ifs <;> refine ⟨?_, ?_, ?_⟩ <;> omega
  · have harg : daysFromCivil y 10 d
        = 146097 * (y / 400) + (365 * (y - y / 400 * 400)
          + (y - y / 400 * 400) / 4 - (y - y / 400 * 400) / 100
          + (214 + d - 1)) - 719468 := by
      simp only [daysFromCivil]; omega
    rw [harg, civilFromDays_eq (y / 400) (y - y / 400 * 400) (214 + d - 1)
      (by omega) (by omega) (by omega) (by omega) (by omega)]
    simp only [Prod.mk.injEq]
    split_ifs <;> refine ⟨?_, ?_, ?_⟩ <;> omega
  · have harg : daysFromCivil y 11 d
        = 146097 * (y / 400) + (365 * (y - y / 400 * 400)
          + (y - y / 400 * 400) / 4 - (y - y / 400 * 400) / 100
          + (245 + d - 1)) - 719468 := by
      simp only [daysFromCivil]; omega
    rw [harg, civilFromDays_eq (y / 400) (y - y / 400 * 400) (245 + d - 1)
      (by omega) (by omega) (by omega) (by omega) (by omega)]
    simp only [Prod.mk.injEq]
    split_ifs <;> refine ⟨?_, ?_, ?_⟩ <;> omega
  · have harg : daysFromCivil y 12 d
        = 146097 * (y / 400) + (365 * (y - y / 400 * 400)
          + (y - y / 400 * 400) / 4 - (y - y / 400 * 400) / 100
          + (275 + d - 1)) - 719468 := by
      simp only [daysFromCivil]; omega
    rw [harg, civilFromDays_eq (y / 400) (y - y / 400 * 400) (275 + d - 1)
      (by omega) (by omega) (by omega) (by omega) (by omega)]
    simp only [Prod.mk.injEq]
    split_ifs <;> refine ⟨?_, ?_, ?_⟩ <;> omega

def nextDate (y m d : Int) : Int × Int × Int :=
  if d < daysInMonth y m then (y, m, d + 1)
  else if m < 12 then (y, m + 1, 1)
  else (y + 1, 1, 1)

def prevDate (y m d : Int) : Int × Int × Int :=
  if 1 < d then (y, m, d - 1)
  else if 1 < m then (y, m - 1, daysInMonth y (m - 1))
  else (y - 1, 12, 31)

set_option maxHeartbeats 2000000 in
theorem nextDate_spec (y m d : Int) (h : ValidCivil y m d) :
    ValidCivil (nextDate y m d).1 (nextDate y m d).2.1 (nextDate y m d).2.2 ∧
    daysFromCivil (nextDate y m d).1 (nextDate y m d).2.1 (nextDate y m d).2.2
      = daysFromCivil y m d + 1 := by
  obtain ⟨h1, h2, h3, h4⟩ := h
  unfold daysInMonth at h4
  unfold nextDate ValidCivil daysInMonth
  interval_cases m <;> norm_num at h4 ⊢ <;>
    split_ifs <;> simp_all [daysFromCivil] <;> omega

set_option maxHeartbeats 2000000 in
theorem prevDate_spec (y m d : Int) (h : ValidCivil y m d) :
    ValidCivil (prevDate y m d).1 (prevDate y m d).2.1 (prevDate y m d).2.2 ∧
    daysFromCivil (prevDate y m d).1 (prevDate y m d).2.1 (prevDate y m d).2.2
      = daysFromCivil y m d - 1 := by
  obtain ⟨h1, h2, h3, h4⟩ := h
  unfold daysInMonth at h4
  unfold prevDate ValidCivil daysInMonth
  interval_cases m <;> norm_num at h4 ⊢ <;>
    split_ifs <;> simp_all [daysFromCivil] <;> omega

theorem daysFromCivil_surjective (n : Int) :
    ∃ y m d, ValidCivil y m d ∧ daysFromCivil y m d = n := by
  induction n using Int.induction_on with
  | hz => exact ⟨1970, 1, 1, by decide, by decide⟩
  | hp i ih =>
    obtain ⟨y, m, d, hv, he⟩ := ih
    obtain ⟨hv', he'⟩ := nextDate_spec y m d hv
    exact ⟨_, _, _, hv', by rw [he', he]⟩
  | hn i ih =>
    obtain ⟨y, m, d, hv, he⟩ := ih
    obtain ⟨hv', he'⟩ := prevDate_spec y m d hv
    exact ⟨_, _, _, hv', by rw [he', he]⟩

theorem civilFromDays_spec (n : Int) :
    ValidCivil (civilFromDays n).1 (civilFromDays n).2.1 (civilFromDays n).2.2 ∧
    daysFromCivil (civilFromDays n).1 (civilFromDays n).2.1 (civilFromDays n).2.2 = n := by
  obtain ⟨y, m, d, hv, he⟩ := daysFromCivil_surjective n
  have hc := civilFromDays_daysFromCivil y m d hv
  rw [he] at hc
  rw [hc]
  exact ⟨hv, he⟩

/-! ## Timezone model

A zone is a total function from UTC instants (ms) to offset minutes.
The modelled IANA-database fragment covers the zones exercised by the
repository documentation: UTC, Asia/Tokyo (fixed +540) and
America/New_York (the US DST rule in force since 2007, extended to all
years of the proleptic calendar). -/

/-- A timezone: UTC-offset in minutes as a function of the instant. -/
structure ZoneInfo where
  offsetAt : Int → Int

/-- The UTC zone. -/
def utcZone : ZoneInfo := ⟨fun _ => 0⟩

/-- Asia/Tokyo: fixed offset UTC+9, no DST. -/
def tokyoZone : ZoneInfo := ⟨fun _ => 540⟩

/-- Day of the second Sunday of March of year y (day 0 of the epoch,
1970-01-01, was a Thursday; Sunday is day-of-week 0). -/
def secondSundayMarch (y : Int) : Int :=
  8 + (-(daysFromCivil y 3 8 + 4)) % 7

/-- Day of the first Sunday of November of year y. -/
def firstSundayNovember (y : Int) : Int :=
  1 + (-(daysFromCivil y 11 1 + 4)) % 7

/-- America/New_York offset at a UTC instant t (ms): UTC-4 during DST
(second Sunday of March 07:00 UTC up to first Sunday of November
06:00 UTC of the UTC year of t), UTC-5 otherwise. -/
def nyOffsetAt (t : Int) : Int :=
  let y := (civilFromDays (t / 86400000)).1
  let dstStart := daysFromCivil y 3 (secondSundayMarch y) * 86400000 + 7 * 3600000
  let dstEnd := daysFromCivil y 11 (firstSundayNovember y) * 86400000 + 6 * 3600000
  if dstStart ≤ t ∧ t < dstEnd then -240 else -300

/-- America/New_York. -/
def nyZone : ZoneInfo := ⟨nyOffsetAt⟩

/-- The modelled timezone database: Luxon's IANAZone lookup restricted
to the zones the repository documentation exercises; any other string
is an unrecognized zone (Luxon: invalid DateTime). -/
def findZone (name : String) : Option ZoneInfo :=
  if name = "UTC" then some utcZone
  else if name = "America/New_York" then some nyZone
  else if name = "Asia/Tokyo" then some tokyoZone
  else none

/-- Luxon's fixOffset algorithm (luxon src/datetime.js): resolve a
wall-clock timestamp (localTS, ms, read as if it were UTC) to a real
UTC instant in zone z, starting from the provisional offset guess o
(minutes).  Branch three is the nonexistent-time (DST gap) case. -/
def fixOffset (localTS o : Int) (z : ZoneInfo) : Int :=
  let utcGuess := localTS - o * 60000
  let o2 := z.offsetAt utcGuess
  if o2 = o then utcGuess
  else
    let utcGuess2 := utcGuess - (o2 - o) * 60000
    let o3 := z.offsetAt utcGuess2
    if o2 = o3 then utcGuess2
    else localTS - min o2 o3 * 60000

/-! ## Character-level parsing and formatting

Luxon's DateTime.fromFormat with the format string used by the source
('yyyy-MM-dd HH:mm'), DateTime.fromISO on the canonical timestamps the
schema stores, and toISO / toFormat output, modelled on char lists. -/

/-- Numeric value of a decimal digit character. -/
def digitVal (c : Char) : Option Int :=
  if 48 ≤ c.toNat ∧ c.toNat ≤ 57 then some ((c.toNat : Int) - 48) else none

/-- Decimal digit character of a value in [0, 9]. -/
def digitChar (n : Int) : Char := Char.ofNat (48 + n.toNat)

def dashChar : Char := Char.ofNat 45

def colonChar : Char := Char.ofNat 58

def spaceChar : Char := Char.ofNat 32

def tSepChar : Char := Char.ofNat 84

def zSufChar : Char := Char.ofNat 90

def dotChar : Char := Char.ofNat 46

/-- Wall-clock milliseconds of a civil date plus time of day. -/
def localMs (y m d hh mi : Int) : Int :=
  daysFromCivil y m d * 86400000 + hh * 3600000 + mi * 60000

/-- Luxon DateTime.fromFormat with format 'yyyy-MM-dd HH:mm': match
the pattern exactly and validate ranges and the real calendar; returns
the wall-clock timestamp in ms (not yet zone-resolved). -/
def parseYMDHM : List Char → Option Int
  | [y1, y2, y3, y4, s1, m1, m2, s2, d1, d2, s3, h1, h2, s4, n1, n2] =>
    if s1 = dashChar ∧ s2 = dashChar ∧ s3 = spaceChar ∧ s4 = colonChar then
      match digitVal y1, digitVal y2, digitVal y3, digitVal y4, digitVal m1, digitVal m2,
            digitVal d1, digitVal d2, digitVal h1, digitVal h2, digitVal n1, digitVal n2 with
      | some a, some b, some c, some e, some f, some g,
        some i, some j, some k, some l, some p, some q =>
        let y := 1000 * a + 100 * b + 10 * c + e
        let mo := 10 * f + g
        let dy := 10 * i + j
        let hh := 10 * k + l
        let mi := 10 * p + q
        if 1 ≤ mo ∧ mo ≤ 12 ∧ 1 ≤ dy ∧ dy ≤ daysInMonth y mo ∧ hh ≤ 23 ∧ mi ≤ 59 then
          some (localMs y mo dy hh mi)
        else none
      | _, _, _, _, _, _, _, _, _, _, _, _ => none
    else none
  | _ => none

/-- Fractional-seconds / Z-suffix tail of an ISO timestamp: empty, 'Z',
'.SSS' or '.SSSZ'; returns the milliseconds. -/
def parseFrac : List Char → Option Int
  | [] => some 0
  | [c] => if c = zSufChar then some 0 else none
  | [p, a, b, c] =>
    if p = dotChar then
      match digitVal a, digitVal b, digitVal c with
      | some va, some vb, some vc => some (100 * va + 10 * vb + vc)
      | _, _, _ => none
    else none
  | [p, a, b, c, z0] =>
    if p = dotChar ∧ z0 = zSufChar then
      match digitVal a, digitVal b, digitVal c with
      | some va, some vb, some vc => some (100 * va + 10 * vb + vc)
      | _, _, _ => none
    else none
  | _ => none

/-- Seconds tail of an ISO timestamp: empty, 'Z', or ':ss' followed by
a fractional tail; returns the milliseconds. -/
def parseSec : List Char → Option Int
  | [] => some 0
  | [c] => if c = zSufChar then some 0 else none
  | c0 :: s1 :: s2 :: rest =>
    if c0 = colonChar then
      match digitVal s1, digitVal s2 with
      | some v1, some v2 =>
        if 10 * v1 + v2 ≤ 59 then
          match parseFrac rest with
          | some ms => some ((10 * v1 + v2) * 1000 + ms)
          | none => none
        else none
      | _, _ => none
    else none
  | _ => none

/-- Luxon DateTime.fromISO (with zone utc) on the canonical timestamps
the schema stores: 'yyyy-MM-ddTHH:mm', optionally with ':ss', '.SSS'
and a 'Z' suffix; returns the UTC instant in ms. -/
def parseISOChars : List Char → Option Int
  | y1 :: y2 :: y3 :: y4 :: s1 :: m1 :: m2 :: s2 :: d1 :: d2 :: s3 :: h1 :: h2 :: s4
      :: n1 :: n2 :: rest =>
    if s1 = dashChar ∧ s2 = dashChar ∧ s3 = tSepChar ∧ s4 = colonChar then
      match digitVal y1, digitVal y2, digitVal y3, digitVal y4, digitVal m1, digitVal m2,
            digitVal d1, digitVal d2, digitVal h1, digitVal h2, digitVal n1, digitVal n2 with
      | some a, some b, some c, some e, some f, some g,
        some i, some j, some k, some l, some p, some q =>
        let y := 1000 * a + 100 * b + 10 * c + e
        let mo := 10 * f + g
        let dy := 10 * i + j
        let hh := 10 * k + l
        let mi := 10 * p + q
        if 1 ≤ mo ∧ mo ≤ 12 ∧ 1 ≤ dy ∧ dy ≤ daysInMonth y mo ∧ hh ≤ 23 ∧ mi ≤ 59 then
          match parseSec rest with
          | some secMs => some (localMs y mo dy hh mi + secMs)
          | none => none
        else none
      | _, _, _, _, _, _, _, _, _, _, _, _ => none
    else none
  | _ => none

/-- Two right-aligned zero-padded decimal digits. -/
def pad2 (n : Int) : List Char := [digitChar (n / 10 % 10), digitChar (n % 10)]

/-- Three right-aligned zero-padded decimal digits. -/
def pad3 (n : Int) : List Char :=
  [digitChar (n / 100 % 10), digitChar (n / 10 % 10), digitChar (n % 10)]

/-- Four right-aligned zero-padded decimal digits. -/
def pad4 (n : Int) : List Char :=
  [digitChar (n / 1000 % 10), digitChar (n / 100 % 10), digitChar (n / 10 % 10),
    digitChar (n % 10)]

/-- toFormat 'yyyy-MM-dd' of a wall-clock timestamp (ms). -/
def fmtDateChars (t : Int) : List Char :=
  let ymd := civilFromDays (t / 86400000)
  pad4 ymd.1 ++ [dashChar] ++ pad2 ymd.2.1 ++ [dashChar] ++ pad2 ymd.2.2

/-- toFormat 'HH:mm' of a wall-clock timestamp (ms). -/
def fmtTimeChars (t : Int) : List Char :=
  pad2 (t % 86400000 / 3600000) ++ [colonChar] ++ pad2 (t % 86400000 % 3600000 / 60000)

/-- Luxon toISO of a UTC instant (ms): 'yyyy-MM-ddTHH:mm:ss.SSSZ'. -/
def fmtISOUTCChars (t : Int) : List Char :=
  fmtDateChars t ++ [tSepChar] ++ fmtTimeChars t ++ [colonChar]
    ++ pad2 (t % 60000 / 1000) ++ [dotChar] ++ pad3 (t % 1000) ++ [zSufChar]

/-- Canonical 'yyyy-MM-dd' string of a civil date (for stating the
round-trip theorems over exactly the valid date strings). -/
def fmtDateStr (y m d : Int) : String :=
  String.mk (pad4 y ++ [dashChar] ++ pad2 m ++ [dashChar] ++ pad2 d)

/-- Canonical 'HH:mm' string of a time of day. -/
def fmtTimeStr (hh mi : Int) : String :=
  String.mk (pad2 hh ++ [colonChar] ++ pad2 mi)

/-! ## The migration helpers (src/lib/db/models/Task.js, documented in
src/IMPLEMENTATION_GUIDE.md Phase 1.2) -/

/-- toUTCTimestamp(dateISO, time, timezone) of the migration guide:
empty sentinel on missing input; DateTime.fromFormat of
dateISO + space + time with format 'yyyy-MM-dd HH:mm' in the zone;
empty sentinel when that DateTime is invalid (unknown zone or bad
wall-clock); otherwise localDT.toUTC().toISO().  The extra argument
nowUTC is Luxon's Settings.now(): fromFormat seeds fixOffset with the
zone's offset at the current instant. -/
def toUTCTimestamp (dateISO time timezone : String) (nowUTC : Int) : String :=
  if dateISO = "" ∨ time = "" then ""
  else
    match findZone timezone, parseYMDHM (dateISO.toList ++ spaceChar :: time.toList) with
    | some z, some localTS =>
      String.mk (fmtISOUTCChars (fixOffset localTS (z.offsetAt nowUTC) z))
    | _, _ => ""

/-- The pair of cached display fields. -/
structure LocalFields where
  dateISO : String
  time : String
deriving DecidableEq

/-- fromUTCTimestamp(timestampUTC, timezone) of the migration guide:
empty fields on empty input; otherwise DateTime.fromISO with zone utc,
setZone(timezone), and toFormat for both fields.  An unparsable
timestamp or unknown zone makes the DateTime invalid, and Luxon's
toFormat renders an invalid DateTime as the string
'Invalid DateTime'. -/
def fromUTCTimestamp (timestampUTC timezone : String) : LocalFields :=
  if timestampUTC = "" then ⟨"", ""⟩
  else
    match parseISOChars timestampUTC.toList, findZone timezone with
    | some t, some z =>
      let localTS := t + z.offsetAt t * 60000
      ⟨String.mk (fmtDateChars localTS), String.mk (fmtTimeChars localTS)⟩
    | _, _ => ⟨"Invalid DateTime", "Invalid DateTime"⟩

/-! ## The corrected notification predicate
(functions/checkNotify.js, NEW version of the migration guide) -/

/-- JavaScript parseInt(s, 10): skip leading spaces, optional sign,
then leading decimal digits (trailing junk ignored); none models NaN. -/
def parseIntJS (s : String) : Option Int :=
  let cs := s.toList.dropWhile (fun c => c = spaceChar)
  let core : List Char → Option Int := fun l =>
    let ds := l.takeWhile (fun c => 48 ≤ c.toNat ∧ c.toNat ≤ 57)
    if ds = [] then none
    else some (ds.foldl (fun acc c => 10 * acc + ((c.toNat : Int) - 48)) 0)
  match cs with
  | c :: rest =>
    if c = dashChar then (core rest).map (fun v => -v)
    else if c = Char.ofNat 43 then core rest
    else core (c :: rest)
  | [] => none

/-- The datetime-bearing fields of a task document as seen by the
notification poller. -/
structure TaskData where
  startTimestampUTC : String
  startDateISO : String
  startTime : String
  timeZone : String
  notify : String

/-- The task instant computed by the NEW shouldNotifyNow: the stored
UTC timestamp when present (new format), otherwise
DateTime.fromFormat of the cached fields in the stored zone (legacy
records); none models an invalid DateTime. -/
def resolveTaskInstant (taskData : TaskData) (nowUTC : Int) : Option Int :=
  if taskData.startTimestampUTC ≠ "" then
    parseISOChars taskData.startTimestampUTC.toList
  else
    match findZone taskData.timeZone,
      parseYMDHM (taskData.startDateISO.toList ++ spaceChar :: taskData.startTime.toList) with
    | some z, some localTS => some (fixOffset localTS (z.offsetAt nowUTC) z)
    | _, _ => none

/-- shouldNotifyNow(taskData) of the migration guide (NEW version):
false when the task datetime is invalid; false when parseInt of the
notify field is NaN; otherwise compare now against the task instant
minus the lead minutes, both truncated to the minute, in UTC
(now.hasSame(notifyTime, minute) with both DateTimes in UTC). -/
def shouldNotifyNow (taskData : TaskData) (nowUTC : Int) : Bool :=
  match resolveTaskInstant taskData nowUTC with
  | none => false
  | some taskDateTime =>
    match parseIntJS taskData.notify with
    | none => false
    | some notifyMinutes =>
      let notifyTime := taskDateTime - notifyMinutes * 60000
      if notifyMinutes = 0 then decide (nowUTC / 60000 = taskDateTime / 60000)
      else decide (nowUTC / 60000 = notifyTime / 60000)

/-! ## The dual-write logic (Task.create and Task.update of the
migration guide, Phase 2) -/

/-- The datetime-bearing fields of a stored task record. -/
structure TaskRecord where
  startTimestampUTC : String
  startDateISO : String
  startTime : String
  timeZone : String
deriving DecidableEq

/-- The datetime dual-write of Task.create: if date and time are
present and no UTC timestamp is, compute it; if a timestamp is present
but no date, fill the cached fields from it. -/
def taskCreate (t : TaskRecord) (nowUTC : Int) : TaskRecord :=
  let t1 :=
    if t.startDateISO ≠ "" ∧ t.startTime ≠ "" ∧ t.startTimestampUTC = "" then
      { t with startTimestampUTC := toUTCTimestamp t.startDateISO t.startTime t.timeZone nowUTC }
    else t
  if t1.startTimestampUTC ≠ "" ∧ t1.startDateISO = "" then
    let lf := fromUTCTimestamp t1.startTimestampUTC t1.timeZone
    { t1 with startDateISO := lf.dateISO, startTime := lf.time }
  else t1

/-- A keyValueChanges object for Task.update: for each datetime field,
none models an absent key (undefined). -/
structure TaskChanges where
  startTimestampUTC : Option String
  startDateISO : Option String
  startTime : Option String
  timeZone : Option String

/-- The datetime dual-write of Task.update, merged over the current
record: when a date, time or zone key is present, recompute the UTC
timestamp from the merged values (empty sentinel when the pair is
incomplete); when only a (truthy) timestamp is supplied, refresh the
cached fields from it; otherwise pass the changes through. -/
def taskUpdate (cur : TaskRecord) (ch : TaskChanges) (nowUTC : Int) : TaskRecord :=
  if ch.startDateISO.isSome ∨ ch.startTime.isSome ∨ ch.timeZone.isSome then
    let dateISO := ch.startDateISO.getD cur.startDateISO
    let time := ch.startTime.getD cur.startTime
    let timezone := ch.timeZone.getD cur.timeZone
    let ts :=
      if dateISO ≠ "" ∧ time ≠ "" then toUTCTimestamp dateISO time timezone nowUTC else ""
    ⟨ts, dateISO, time, timezone⟩
  else if ch.startTimestampUTC.getD "" ≠ "" then
    let ts := ch.startTimestampUTC.getD ""
    let lf := fromUTCTimestamp ts cur.timeZone
    ⟨ts, lf.dateISO, lf.time, cur.timeZone⟩
  else
    ⟨ch.startTimestampUTC.getD cur.startTimestampUTC, cur.startDateISO, cur.startTime,
      cur.timeZone⟩

/-- Invariant I1 of the spec for a stored record: a present UTC
timestamp projects (through fromUTCTimestamp in the record zone)
exactly onto the cached display fields. -/
def I1Holds (r : TaskRecord) : Prop :=
  r.startTimestampUTC ≠ "" →
    fromUTCTimestamp r.startTimestampUTC r.timeZone = ⟨r.startDateISO, r.startTime⟩

/-! ## Bridge lemmas -/

/-- digitChar and digitVal are mutually inverse on digit values. -/
theorem digitVal_digitChar (n : Int) (h1 : 0 ≤ n) (h2 : n ≤ 9) :
    digitVal (digitChar n) = some n := by
  interval_cases n <;> decide

/-- The modelled America/New_York offset is always one of -240, -300. -/
theorem ny_offset_cases (v : Int) : nyZone.offsetAt v = -240 ∨ nyZone.offsetAt v = -300 := by
  show nyOffsetAt v = -240 ∨ nyOffsetAt v = -300
  simp only [nyOffsetAt]
  split <;> simp

/-- fixOffset finds the preimage of a wall-clock timestamp whenever it
is unique, for a zone taking at most two offset values and any guess
among them (all zones of the modelled database are of this shape). -/
theorem fixOffset_eq (z : ZoneInfo) (a b localTS g u : Int)
    (hz : ∀ v, z.offsetAt v = a ∨ z.offsetAt v = b)
    (hg : g = a ∨ g = b)
    (hu : u + z.offsetAt u * 60000 = localTS)
    (huniq : ∀ v, v + z.offsetAt v * 60000 = localTS → v = u) :
    fixOffset localTS g z = u := by
  simp only [fixOffset]
  split_ifs with hc1 hc2
  · exact huniq _ (by rw [hc1]; ring)
  · refine huniq _ ?_
    have hr : localTS - g * 60000 - (z.offsetAt (localTS - g * 60000) - g) * 60000
        = localTS - z.offsetAt (localTS - g * 60000) * 60000 := by ring
    rw [hr] at hc2
    rw [hr, ← hc2]
    ring
  · exfalso
    have ho : z.offsetAt u = a ∨ z.offsetAt u = b := hz u
    by_cases hug : z.offsetAt u = g
    · apply hc1
      have hx : localTS - g * 60000 = u := by omega
      rw [hx, hug]
    · have ho2 : z.offsetAt (localTS - g * 60000) = g
          ∨ z.offsetAt (localTS - g * 60000) = z.offsetAt u := by
        rcases hz (localTS - g * 60000) with h2 | h2 <;> rcases ho with ho | ho <;>
          rcases hg with hg | hg <;> omega
      rcases ho2 with ho2 | ho2
      · exact hc1 ho2
      · apply hc2
        have harg : localTS - g * 60000 - (z.offsetAt (localTS - g * 60000) - g) * 60000
            = u := by
          rw [ho2]; omega
        rw [harg, ho2]

/-- fixOffset returns a preimage of the wall-clock timestamp whenever
one exists at all, for a zone taking at most two offset values and any
guess among them: existence (no DST gap) is enough, uniqueness is not
needed, so in a fall-back overlap the returned occurrence still
projects back onto the input wall clock. -/
theorem fixOffset_preimage (z : ZoneInfo) (a b localTS g : Int)
    (hz : ∀ v, z.offsetAt v = a ∨ z.offsetAt v = b)
    (hg : g = a ∨ g = b)
    (hex : ∃ u, u + z.offsetAt u * 60000 = localTS) :
    fixOffset localTS g z + z.offsetAt (fixOffset localTS g z) * 60000 = localTS := by
  obtain ⟨u, hu⟩ := hex
  simp only [fixOffset]
  split_ifs with hc1 hc2
  · rw [hc1]; ring
  · have hr : localTS - g * 60000 - (z.offsetAt (localTS - g * 60000) - g) * 60000
        = localTS - z.offsetAt (localTS - g * 60000) * 60000 := by ring
    rw [hr] at hc2 ⊢
    rw [← hc2]
    ring
  · exfalso
    have ho : z.offsetAt u = a ∨ z.offsetAt u = b := hz u
    by_cases hug : z.offsetAt u = g
    · apply hc1
      have hx : localTS - g * 60000 = u := by omega
      rw [hx, hug]
    · have ho2 : z.offsetAt (localTS - g * 60000) = g
          ∨ z.offsetAt (localTS - g * 60000) = z.offsetAt u := by
        rcases hz (localTS - g * 60000) with h2 | h2 <;> rcases ho with ho | ho <;>
          rcases hg with hg | hg <;> omega
      rcases ho2 with ho2 | ho2
      · exact hc1 ho2
      · apply hc2
        have harg : localTS - g * 60000 - (z.offsetAt (localTS - g * 60000) - g) * 60000
            = u := by
          rw [ho2]; omega
        rw [harg, ho2]

/-- Two-valued zones: the wall clock localTS has a unique preimage as
soon as one candidate projects back onto it and the other one (when
distinct) does not. -/
theorem unique_preimage_two (z : ZoneInfo) (a b localTS : Int)
    (hz : ∀ v, z.offsetAt v = a ∨ z.offsetAt v = b)
    (ha : z.offsetAt (localTS - a * 60000) = a)
    (hb : z.offsetAt (localTS - b * 60000) ≠ b ∨ a = b) :
    ∃! v, v + z.offsetAt v * 60000 = localTS := by
  refine ⟨localTS - a * 60000, ?_, ?_⟩
  · show localTS - a * 60000 + z.offsetAt (localTS - a * 60000) * 60000 = localTS
    rw [ha]; ring
  intro v hv
  rcases hz v with h | h
  · omega
  · have hv2 : v = localTS - b * 60000 := by omega
    rcases hb with hb | hb
    · rw [hv2] at h; exact absurd h hb
    · omega

/-- Parsing the canonical date and time strings recovers the
wall-clock timestamp: fromFormat inverts formatting. -/
theorem parseYMDHM_fmt (y m d hh mi : Int)
    (hy0 : 0 ≤ y) (hy9 : y ≤ 9999) (hv : ValidCivil y m d)
    (hh0 : 0 ≤ hh) (hh23 : hh ≤ 23) (hmi0 : 0 ≤ mi) (hmi59 : mi ≤ 59) :
    parseYMDHM ((fmtDateStr y m d).toList ++ spaceChar :: (fmtTimeStr hh mi).toList)
      = some (localMs y m d hh mi) := by
  obtain ⟨hm1, hm2, hd1, hd2⟩ := hv
  have hdim : daysInMonth y m ≤ 31 := by unfold daysInMonth; split_ifs <;> omega
  have hmk : ∀ l : List Char, (String.mk l).toList = l := fun _ => rfl
  have hlist : (fmtDateStr y m d).toList ++ spaceChar :: (fmtTimeStr hh mi).toList
      = [digitChar (y / 1000 % 10), digitChar (y / 100 % 10), digitChar (y / 10 % 10),
         digitChar (y % 10), dashChar, digitChar (m / 10 % 10), digitChar (m % 10),
         dashChar, digitChar (d / 10 % 10), digitChar (d % 10), spaceChar,
         digitChar (hh / 10 % 10), digitChar (hh % 10), colonChar,
         digitChar (mi / 10 % 10), digitChar (mi % 10)] := by
    simp [fmtDateStr, fmtTimeStr, pad4, pad2, hmk]
  rw [hlist]
  simp only [parseYMDHM]
  rw [if_pos ⟨trivial, trivial, trivial, trivial⟩]
  rw [digitVal_digitChar (y / 1000 % 10) (by omega) (by omega),
    digitVal_digitChar (y / 100 % 10) (by omega) (by omega),
    digitVal_digitChar (y / 10 % 10) (by omega) (by omega),
    digitVal_digitChar (y % 10) (by omega) (by omega),
    digitVal_digitChar (m / 10 % 10) (by omega) (by omega),
    digitVal_digitChar (m % 10) (by omega) (by omega),
    digitVal_digitChar (d / 10 % 10) (by omega) (by omega),
    digitVal_digitChar (d % 10) (by omega) (by omega),
    digitVal_digitChar (hh / 10 % 10) (by omega) (by omega),
    digitVal_digitChar (hh % 10) (by omega) (by omega),
    digitVal_digitChar (mi / 10 % 10) (by omega) (by omega),
    digitVal_digitChar (mi % 10) (by omega) (by omega)]
  have hyv : 1000 * (y / 1000 % 10) + 100 * (y / 100 % 10) + 10 * (y / 10 % 10) + y % 10
      = y := by omega
  have hmv : 10 * (m / 10 % 10) + m % 10 = m := by omega
  have hdv : 10 * (d / 10 % 10) + d % 10 = d := by omega
  have hhv : 10 * (hh / 10 % 10) + hh % 10 = hh := by omega
  have hmiv : 10 * (mi / 10 % 10) + mi % 10 = mi := by omega
  simp only [hyv, hmv, hdv, hhv, hmiv]
  rw [if_pos ⟨hm1, hm2, hd1, hd2, hh23, hmi59⟩]

/-- Parsing the formatted ISO timestamp of an instant recovers the
instant: fromISO inverts toISO (for years the fixed-width 'yyyy'
format covers). -/
theorem parseISO_fmtISO (t : Int)
    (hy0 : 0 ≤ (civilFromDays (t / 86400000)).1)
    (hy9 : (civilFromDays (t / 86400000)).1 ≤ 9999) :
    parseISOChars (fmtISOUTCChars t) = some t := by
  obtain ⟨hvalid, hdays⟩ := civilFromDays_spec (t / 86400000)
  obtain ⟨hm1, hm2, hd1, hd2⟩ := hvalid
  have hdim : daysInMonth (civilFromDays (t / 86400000)).1
      (civilFromDays (t / 86400000)).2.1 ≤ 31 := by
    unfold daysInMonth; split_ifs <;> omega
  have hlist : fmtISOUTCChars t
      = [digitChar ((civilFromDays (t / 86400000)).1 / 1000 % 10),
         digitChar ((civilFromDays (t / 86400000)).1 / 100 % 10),
         digitChar ((civilFromDays (t / 86400000)).1 / 10 % 10),
         digitChar ((civilFromDays (t / 86400000)).1 % 10), dashChar,
         digitChar ((civilFromDays (t / 86400000)).2.1 / 10 % 10),
         digitChar ((civilFromDays (t / 86400000)).2.1 % 10), dashChar,
         digitChar ((civilFromDays (t / 86400000)).2.2 / 10 % 10),
         digitChar ((civilFromDays (t / 86400000)).2.2 % 10), tSepChar,
         digitChar (t % 86400000 / 3600000 / 10 % 10),
         digitChar (t % 86400000 / 3600000 % 10), colonChar,
         digitChar (t % 86400000 % 3600000 / 60000 / 10 % 10),
         digitChar (t % 86400000 % 3600000 / 60000 % 10), colonChar,
         digitChar (t % 60000 / 1000 / 10 % 10),
         digitChar (t % 60000 / 1000 % 10), dotChar,
         digitChar (t % 1000 / 100 % 10),
         digitChar (t % 1000 / 10 % 10),
         digitChar (t % 1000 % 10), zSufChar] := by
    simp [fmtISOUTCChars, fmtDateChars, fmtTimeChars, pad4, pad3, pad2]
  rw [hlist]
  simp only [parseISOChars]
  rw [if_pos ⟨trivial, trivial, trivial, trivial⟩]
  rw [digitVal_digitChar ((civilFromDays (t / 86400000)).1 / 1000 % 10) (by omega) (by omega),
    digitVal_digitChar ((civilFromDays (t / 86400000)).1 / 100 % 10) (by omega) (by omega),
    digitVal_digitChar ((civilFromDays (t / 86400000)).1 / 10 % 10) (by omega) (by omega),
    digitVal_digitChar ((civilFromDays (t / 86400000)).1 % 10) (by omega) (by omega),
    digitVal_digitChar ((civilFromDays (t / 86400000)).2.1 / 10 % 10) (by omega) (by omega),
    digitVal_digitChar ((civilFromDays (t / 86400000)).2.1 % 10) (by omega) (by omega),
    digitVal_digitChar ((civilFromDays (t / 86400000)).2.2 / 10 % 10) (by omega) (by omega),
    digitVal_digitChar ((civilFromDays (t / 86400000)).2.2 % 10) (by omega) (by omega),
    digitVal_digitChar (t % 86400000 / 3600000 / 10 % 10) (by omega) (by omega),
    digitVal_digitChar (t % 86400000 / 3600000 % 10) (by omega) (by omega),
    digitVal_digitChar (t % 86400000 % 3600000 / 60000 / 10 % 10) (by omega) (by omega),
    digitVal_digitChar (t % 86400000 % 3600000 / 60000 % 10) (by omega) (by omega)]
  have hyv : 1000 * ((civilFromDays (t / 86400000)).1 / 1000 % 10)
      + 100 * ((civilFromDays (t / 86400000)).1 / 100 % 10)
      + 10 * ((civilFromDays (t / 86400000)).1 / 10 % 10)
      + (civilFromDays (t / 86400000)).1 % 10 = (civilFromDays (t / 86400000)).1 := by
    omega
  have hmv : 10 * ((civilFromDays (t / 86400000)).2.1 / 10 % 10)
      + (civilFromDays (t / 86400000)).2.1 % 10 = (civilFromDays (t / 86400000)).2.1 := by
    omega
  have hdv : 10 * ((civilFromDays (t / 86400000)).2.2 / 10 % 10)
      + (civilFromDays (t / 86400000)).2.2 % 10 = (civilFromDays (t / 86400000)).2.2 := by
    omega
  have hhv : 10 * (t % 86400000 / 3600000 / 10 % 10) + t % 86400000 / 3600000 % 10
      = t % 86400000 / 3600000 := by omega
  have hmiv : 10 * (t % 86400000 % 3600000 / 60000 / 10 % 10)
      + t % 86400000 % 3600000 / 60000 % 10 = t % 86400000 % 3600000 / 60000 := by omega
  simp only [hyv, hmv, hdv, hhv, hmiv]
  rw [if_pos ⟨hm1, hm2, hd1, hd2, by omega, by omega⟩]
  simp only [parseSec]
  rw [if_pos (by trivial)]
  rw [digitVal_digitChar (t % 60000 / 1000 / 10 % 10) (by omega) (by omega),
    digitVal_digitChar (t % 60000 / 1000 % 10) (by omega) (by omega)]
  have hssv : 10 * (t % 60000 / 1000 / 10 % 10) + t % 60000 / 1000 % 10
      = t % 60000 / 1000 := by omega
  simp only [hssv]
  rw [if_pos (by omega)]
  simp only [parseFrac]
  rw [if_pos ⟨by trivial, by trivial⟩]
  rw [digitVal_digitChar (t % 1000 / 100 % 10) (by omega) (by omega),
    digitVal_digitChar (t % 1000 / 10 % 10) (by omega) (by omega),
    digitVal_digitChar (t % 1000 % 10) (by omega) (by omega)]
  simp only [Option.some.injEq]
  unfold localMs
  rw [hdays]
  omega

/-- A nonempty char list makes a nonempty string. -/
theorem mk_ne_empty (c : Char) (l : List Char) : String.mk (c :: l) ≠ "" := by
  intro h
  have h2 : c :: l = ([] : List Char) := congrArg String.data h
  simp at h2

set_option maxHeartbeats 1000000 in
/-- Within a year, the day count lies between January 1 and
December 31 of that year. -/
theorem dfc_year_bounds (y m d : Int) (h : ValidCivil y m d) :
    daysFromCivil y 1 1 ≤ daysFromCivil y m d ∧
    daysFromCivil y m d ≤ daysFromCivil y 12 31 := by
  obtain ⟨h1, h2, h3, h4⟩ := h
  unfold daysInMonth at h4
  interval_cases m <;> norm_num at h4 <;>
    (constructor <;> simp only [daysFromCivil] <;> omega)

/-- January-1 day counts grow with the year. -/
theorem dfc_jan1_mono (y1 y2 : Int) (h : y1 ≤ y2) :
    daysFromCivil y1 1 1 ≤ daysFromCivil y2 1 1 := by
  simp only [daysFromCivil]
  omega

/-- December 31 is the eve of the next January 1. -/
theorem dfc_dec31_succ (y : Int) :
    daysFromCivil y 12 31 + 1 = daysFromCivil (y + 1) 1 1 := by
  have hval : ValidCivil y 12 31 := by unfold ValidCivil daysInMonth; norm_num
  have hspec := (nextDate_spec y 12 31 hval).2
  have hnd : nextDate y 12 31 = (y + 1, 1, 1) := by
    unfold nextDate daysInMonth; norm_num
  rw [hnd] at hspec
  exact hspec.symm

/-- The year of a day count bracketed between January 1 of ylo and
December 31 of yhi lies in [ylo, yhi]. -/
theorem year_range_of_day (n ylo yhi : Int)
    (hlo : daysFromCivil ylo 1 1 ≤ n) (hhi : n ≤ daysFromCivil yhi 12 31) :
    ylo ≤ (civilFromDays n).1 ∧ (civilFromDays n).1 ≤ yhi := by
  obtain ⟨hval, hdfc⟩ := civilFromDays_spec n
  obtain ⟨hb1, hb2⟩ := dfc_year_bounds _ _ _ hval
  constructor
  · by_contra hc
    push_neg at hc
    have h1 : daysFromCivil ((civilFromDays n).1 + 1) 1 1 ≤ daysFromCivil ylo 1 1 :=
      dfc_jan1_mono _ _ (by omega)
    have h2 := dfc_dec31_succ (civilFromDays n).1
    omega
  · by_contra hc
    push_neg at hc
    have h1 : daysFromCivil (yhi + 1) 1 1 ≤ daysFromCivil ((civilFromDays n).1) 1 1 :=
      dfc_jan1_mono _ _ (by omega)
    have h2 := dfc_dec31_succ yhi
    omega

/-- Evaluation lemma for toUTCTimestamp on resolvable input. -/
theorem toUTC_eval (dStr tStr tz : String) (z : ZoneInfo) (localTS now : Int)
    (hne : ¬(dStr = "" ∨ tStr = "")) (hz : findZone tz = some z)
    (hp : parseYMDHM (dStr.toList ++ spaceChar :: tStr.toList) = some localTS) :
    toUTCTimestamp dStr tStr tz now
      = String.mk (fmtISOUTCChars (fixOffset localTS (z.offsetAt now) z)) := by
  unfold toUTCTimestamp
  rw [if_neg hne, hz, hp]

/-- Evaluation lemma for fromUTCTimestamp on resolvable input. -/
theorem fromUTC_eval (ts tz : String) (z : ZoneInfo) (t : Int)
    (hne : ¬ts = "") (hp : parseISOChars ts.toList = some t) (hz : findZone tz = some z) :
    fromUTCTimestamp ts tz
      = ⟨String.mk (fmtDateChars (t + z.offsetAt t * 60000)),
         String.mk (fmtTimeChars (t + z.offsetAt t * 60000))⟩ := by
  unfold fromUTCTimestamp
  rw [if_neg hne, hp, hz]

set_option maxHeartbeats 1000000 in
/-- The round trip through toUTCTimestamp and fromUTCTimestamp, for a
zone that takes at most two offset values within [-540, 540] (every
zone of the modelled database does).  Existence of a preimage instant
(the wall clock is not in a DST gap) is the only resolution
hypothesis: in a fall-back overlap either occurrence projects back
onto the input wall clock. -/
theorem roundtrip_zone (tz : String) (z : ZoneInfo) (a b : Int)
    (hz : findZone tz = some z)
    (hz2 : ∀ v, z.offsetAt v = a ∨ z.offsetAt v = b)
    (ha1 : -540 ≤ a) (ha2 : a ≤ 540) (hb1 : -540 ≤ b) (hb2 : b ≤ 540)
    (y m d hh mi now : Int)
    (hv : ValidCivil y m d) (hy1 : 1 ≤ y) (hy2 : y ≤ 9998)
    (hh0 : 0 ≤ hh) (hh23 : hh ≤ 23) (hmi0 : 0 ≤ mi) (hmi59 : mi ≤ 59)
    (hex : ∃ u, u + z.offsetAt u * 60000 = localMs y m d hh mi) :
    fromUTCTimestamp (toUTCTimestamp (fmtDateStr y m d) (fmtTimeStr hh mi) tz now) tz
      = ⟨fmtDateStr y m d, fmtTimeStr hh mi⟩ := by
  have hfixp := fixOffset_preimage z a b (localMs y m d hh mi) (z.offsetAt now) hz2
    (hz2 now) hex
  have hpf := parseYMDHM_fmt y m d hh mi (by omega) (by omega) hv hh0 hh23 hmi0 hmi59
  have hde : ¬(fmtDateStr y m d = "" ∨ fmtTimeStr hh mi = "") := by
    unfold fmtDateStr fmtTimeStr pad4 pad2
    rintro (h | h) <;> exact mk_ne_empty _ _ h
  rw [toUTC_eval (fmtDateStr y m d) (fmtTimeStr hh mi) tz z (localMs y m d hh mi) now
    hde hz hpf]
  generalize hgen : fixOffset (localMs y m d hh mi) (z.offsetAt now) z = u at hfixp ⊢
  have hu : u + z.offsetAt u * 60000 = localMs y m d hh mi := hfixp
  have hou : -540 ≤ z.offsetAt u ∧ z.offsetAt u ≤ 540 := by
    rcases hz2 u with h | h <;> rw [h] <;> exact ⟨by omega, by omega⟩
  have hLlo : daysFromCivil y m d * 86400000 ≤ localMs y m d hh mi := by
    unfold localMs; omega
  have hLhi : localMs y m d hh mi < daysFromCivil y m d * 86400000 + 86400000 := by
    unfold localMs; omega
  have hudaylo : daysFromCivil y m d - 1 ≤ u / 86400000 := by omega
  have hudayhi : u / 86400000 ≤ daysFromCivil y m d + 1 := by omega
  obtain ⟨hby1, hbyd⟩ := dfc_year_bounds y m d hv
  have hylo : daysFromCivil (y - 1) 1 1 ≤ u / 86400000 := by
    have hp1 := dfc_dec31_succ (y - 1)
    have hp2 := (dfc_year_bounds (y - 1) 1 1 (by unfold ValidCivil daysInMonth; norm_num)).2
    have hy : y - 1 + 1 = y := by ring
    rw [hy] at hp1
    omega
  have hyhi : u / 86400000 ≤ daysFromCivil (y + 1) 12 31 := by
    have hp1 := dfc_dec31_succ y
    have hp2 := (dfc_year_bounds (y + 1) 1 1 (by unfold ValidCivil daysInMonth; norm_num)).2
    omega
  have hyr := year_range_of_day (u / 86400000) (y - 1) (y + 1) hylo hyhi
  have hpi := parseISO_fmtISO u (by omega) (by omega)
  have hne2 : ¬String.mk (fmtISOUTCChars u) = "" := by
    unfold fmtISOUTCChars fmtDateChars pad4
    exact mk_ne_empty _ _
  rw [fromUTC_eval (String.mk (fmtISOUTCChars u)) tz z u hne2 hpi hz, hu]
  have hday : localMs y m d hh mi / 86400000 = daysFromCivil y m d := by
    unfold localMs; omega
  have hfd : fmtDateChars (localMs y m d hh mi)
      = pad4 y ++ [dashChar] ++ pad2 m ++ [dashChar] ++ pad2 d := by
    unfold fmtDateChars
    rw [hday, civilFromDays_daysFromCivil y m d hv]
  have hr1 : localMs y m d hh mi % 86400000 / 3600000 = hh := by unfold localMs; omega
  have hr2 : localMs y m d hh mi % 86400000 % 3600000 / 60000 = mi := by
    unfold localMs; omega
  have hft : fmtTimeChars (localMs y m d hh mi) = pad2 hh ++ [colonChar] ++ pad2 mi := by
    unfold fmtTimeChars
    rw [hr1, hr2]
  rw [hfd, hft]
  rfl

/-- Every zone of the modelled database takes at most two offset
values, both within [-540, 540]. -/
theorem findZone_two_valued (tz : String) (z : ZoneInfo) (hz : findZone tz = some z) :
    ∃ a b, (∀ v, z.offsetAt v = a ∨ z.offsetAt v = b) ∧
      -540 ≤ a ∧ a ≤ 540 ∧ -540 ≤ b ∧ b ≤ 540 := by
  unfold findZone at hz
  split_ifs at hz <;> cases hz
  · exact ⟨0, 0, fun v => Or.inl rfl, by norm_num, by norm_num, by norm_num, by norm_num⟩
  · exact ⟨-240, -300, ny_offset_cases, by norm_num, by norm_num, by norm_num, by norm_num⟩
  · exact ⟨540, 540, fun v => Or.inl rfl, by norm_num, by norm_num, by norm_num, by norm_num⟩

/-- C4: for every valid (localDate, localTime, timeZone) triple whose
wall clock does not fall in a DST gap or overlap (it has exactly one
preimage instant in the zone), resolveBackward after resolveForward is
the identity: fromUTCTimestamp (toUTCTimestamp dateISO time tz) tz
returns exactly the original dateISO and time, for any call instant.
Valid triples are quantified as the canonical formats of their
components; the year bound [1, 9998] keeps the formatted UTC year
within the fixed-width 'yyyy' format the model covers. -/
theorem claim_C4_roundtrip (y m d hh mi : Int) (tz : String) (z : ZoneInfo) (now : Int)
    (hz : findZone tz = some z) (hv : ValidCivil y m d) (hy1 : 1 ≤ y) (hy2 : y ≤ 9998)
    (hh0 : 0 ≤ hh) (hh23 : hh ≤ 23) (hmi0 : 0 ≤ mi) (hmi59 : mi ≤ 59)
    (huniq : ∃! u, u + z.offsetAt u * 60000 = localMs y m d hh mi) :
    fromUTCTimestamp (toUTCTimestamp (fmtDateStr y m d) (fmtTimeStr hh mi) tz now) tz
      = ⟨fmtDateStr y m d, fmtTimeStr hh mi⟩ := by
  obtain ⟨a, b, h2, ha1, ha2, hb1, hb2⟩ := findZone_two_valued tz z hz
  exact roundtrip_zone tz z a b hz h2 ha1 ha2 hb1 hb2 y m d hh mi now hv hy1 hy2
    hh0 hh23 hmi0 hmi59 huniq.exists

/-- Witness for C4 at 2025-10-03 14:30 America/New_York: the wall
clock has a unique preimage and the round trip returns it exactly. -/
theorem claim_C4_witness :
    (∃! u, u + nyZone.offsetAt u * 60000 = localMs 2025 10 3 14 30) ∧
    fromUTCTimestamp (toUTCTimestamp (fmtDateStr 2025 10 3) (fmtTimeStr 14 30)
        ("America/New_York") 0) ("America/New_York")
      = ⟨fmtDateStr 2025 10 3, fmtTimeStr 14 30⟩ := by
  have huniq := unique_preimage_two nyZone (-240) (-300) (localMs 2025 10 3 14 30)
    ny_offset_cases (by decide) (Or.inl (by decide))
  exact ⟨huniq, claim_C4_roundtrip 2025 10 3 14 30 ("America/New_York") nyZone 0 rfl
    (by decide) (by norm_num) (by norm_num) (by norm_num) (by norm_num) (by norm_num)
    (by norm_num) huniq⟩

/-- C8: resolveForward of 2025-10-03 14:30 America/New_York is exactly
the UTC instant 2025-10-03T18:30:00Z (EDT, UTC-4), for any call
instant (the DST offset guess does not matter outside transitions). -/
theorem claim_C8_concrete (now : Int) :
    toUTCTimestamp ("2025-10-03") ("14:30") ("America/New_York") now
      = ("2025-10-03T18:30:00.000Z") := by
  have hp : parseYMDHM (("2025-10-03" : String).toList
      ++ spaceChar :: ("14:30" : String).toList) = some (localMs 2025 10 3 14 30) := by
    decide
  rw [toUTC_eval ("2025-10-03") ("14:30") ("America/New_York") nyZone
    (localMs 2025 10 3 14 30) now (by decide) rfl hp]
  rcases ny_offset_cases now with h | h <;> rw [h] <;> decide

/-- C7: resolveForward of the nonexistent wall clock 2025-03-09 02:30
America/New_York (spring-forward gap) returns a defined instant, never
the failure sentinel, for any call instant: the instant 07:30Z
obtained by shifting forward by the one-hour gap (the same instant
resolveForward assigns to the shifted wall clock 03:30). -/
theorem claim_C7_gap (now : Int) :
    toUTCTimestamp ("2025-03-09") ("02:30") ("America/New_York") now
      = ("2025-03-09T07:30:00.000Z")
    ∧ toUTCTimestamp ("2025-03-09") ("02:30") ("America/New_York") now ≠ ""
    ∧ toUTCTimestamp ("2025-03-09") ("03:30") ("America/New_York") now
      = ("2025-03-09T07:30:00.000Z") := by
  have hp : parseYMDHM (("2025-03-09" : String).toList
      ++ spaceChar :: ("02:30" : String).toList) = some (localMs 2025 3 9 2 30) := by
    decide
  have hp2 : parseYMDHM (("2025-03-09" : String).toList
      ++ spaceChar :: ("03:30" : String).toList) = some (localMs 2025 3 9 3 30) := by
    decide
  have h1 : toUTCTimestamp ("2025-03-09") ("02:30") ("America/New_York") now
      = ("2025-03-09T07:30:00.000Z") := by
    rw [toUTC_eval ("2025-03-09") ("02:30") ("America/New_York") nyZone
      (localMs 2025 3 9 2 30) now (by decide) rfl hp]
    rcases ny_offset_cases now with h | h <;> rw [h] <;> decide
  refine ⟨h1, by rw [h1]; decide, ?_⟩
  rw [toUTC_eval ("2025-03-09") ("03:30") ("America/New_York") nyZone
    (localMs 2025 3 9 3 30) now (by decide) rfl hp2]
  rcases ny_offset_cases now with h | h <;> rw [h] <;> decide

/-- C6 counterexample: for the fall-back overlap 2025-11-02 01:30
America/New_York, resolveForward does not return the same instant on
every call: called while DST is in effect (July) it returns the first
occurrence 05:30Z, called while standard time is in effect (January)
it returns the second (post-transition) occurrence 06:30Z. -/
theorem claim_C6_counterexample :
    toUTCTimestamp ("2025-11-02") ("01:30") ("America/New_York") (localMs 2025 7 1 0 0)
      ≠ toUTCTimestamp ("2025-11-02") ("01:30") ("America/New_York") (localMs 2025 1 1 0 0)
    ∧ toUTCTimestamp ("2025-11-02") ("01:30") ("America/New_York") (localMs 2025 7 1 0 0)
      = ("2025-11-02T05:30:00.000Z")
    ∧ toUTCTimestamp ("2025-11-02") ("01:30") ("America/New_York") (localMs 2025 1 1 0 0)
      = ("2025-11-02T06:30:00.000Z") := by
  refine ⟨?_, by decide, by decide⟩
  decide

/-- C6 amended: the occurrence chosen for the fall-back overlap is
determined by the zone offset in effect at the call instant (Luxon
seeds its resolution with it): whenever that offset is the
pre-transition one (UTC-4, DST), resolveForward of 2025-11-02 01:30
America/New_York returns the first (pre-transition) occurrence
2025-11-02T05:30:00Z; at call instants with the post-transition offset
it returns the second occurrence, so the result is not the same on
every call (see the counterexample). -/
theorem claim_C6_amended (now : Int) (h : nyZone.offsetAt now = -240) :
    toUTCTimestamp ("2025-11-02") ("01:30") ("America/New_York") now
      = ("2025-11-02T05:30:00.000Z") := by
  have hp : parseYMDHM (("2025-11-02" : String).toList
      ++ spaceChar :: ("01:30" : String).toList) = some (localMs 2025 11 2 1 30) := by
    decide
  rw [toUTC_eval ("2025-11-02") ("01:30") ("America/New_York") nyZone
    (localMs 2025 11 2 1 30) now (by decide) rfl hp, h]
  decide

/-- Witness for the amended C6: July 2025 is a DST call instant and
the first occurrence is returned there. -/
theorem claim_C6_witness :
    nyZone.offsetAt (localMs 2025 7 1 0 0) = -240 ∧
    toUTCTimestamp ("2025-11-02") ("01:30") ("America/New_York") (localMs 2025 7 1 0 0)
      = ("2025-11-02T05:30:00.000Z") :=
  ⟨by decide, claim_C6_amended (localMs 2025 7 1 0 0) (by decide)⟩

/-- C5 counterexample: the two failure classes are not signalled by
distinct error values: an unrecognized timezone and an incomplete
date/time pair both make toUTCTimestamp return the very same empty
string sentinel (there is no InvalidTimeZone / IncompleteInput
distinction in the code). -/
theorem claim_C5_counterexample :
    toUTCTimestamp ("2025-10-03") ("14:30") ("Not/A_Zone") 0 = ""
    ∧ toUTCTimestamp ("2025-10-03") ("") ("America/New_York") 0 = "" := by
  constructor <;> decide

/-- C5 amended: toUTCTimestamp rejects an unrecognized timezone by
returning the empty sentinel (never substituting a default zone and
never producing a timestamp), and returns the same empty sentinel when
one of date/time is missing; the two failures are not distinct error
values. -/
theorem claim_C5_amended :
    (∀ (dStr tStr tz : String) (now : Int), findZone tz = none →
      toUTCTimestamp dStr tStr tz now = "") ∧
    (∀ (sStr tz : String) (now : Int),
      toUTCTimestamp sStr ("") tz now = "" ∧ toUTCTimestamp ("") sStr tz now = "") := by
  constructor
  · intro dStr tStr tz now hz
    unfold toUTCTimestamp
    split_ifs with h
    · rfl
    · rw [hz]
  · intro sStr tz now
    constructor <;> unfold toUTCTimestamp
    · rw [if_pos (Or.inr rfl)]
    · rw [if_pos (Or.inl rfl)]

/-- Witness for the amended C5 at a concrete unrecognized zone. -/
theorem claim_C5_witness :
    findZone ("Not/A_Zone") = none ∧
    toUTCTimestamp ("2025-12-25") ("09:00") ("Not/A_Zone") 0 = "" :=
  ⟨rfl, claim_C5_amended.1 ("2025-12-25") ("09:00") ("Not/A_Zone") 0 rfl⟩

/-- C10: fromUTCTimestamp on an empty timestamp is total and constant:
for every timezone argument, recognized or not, it returns empty
cached fields without consulting the zone, so clearing a schedule
always clears the display fields. -/
theorem claim_C10_empty_total (tz : String) :
    fromUTCTimestamp ("") tz = ⟨"", ""⟩ := by
  unfold fromUTCTimestamp
  rw [if_pos rfl]

/-- C1: for a moment whose stored UTC timestamp parses to the instant
u and whose notify field parses to the lead n, shouldNotifyNow is true
exactly when now and u minus n minutes fall in the same minute bucket,
with everything computed in UTC; concretely, with instant
2025-10-03T18:30:00Z and lead 15 it fires at nowUTC 18:15Z and not at
nowUTC 14:15Z (the wall clock 14:15 in the stored zone). -/
theorem claim_C1_shouldNotifyNow :
    (∀ (td : TaskData) (now u n : Int),
      parseISOChars td.startTimestampUTC.toList = some u →
      parseIntJS td.notify = some n →
      (shouldNotifyNow td now = true ↔ now / 60000 = (u - n * 60000) / 60000)) ∧
    shouldNotifyNow ⟨"2025-10-03T18:30:00.000Z", "2025-10-03", "14:30",
      "America/New_York", "15"⟩ (localMs 2025 10 3 18 15) = true ∧
    shouldNotifyNow ⟨"2025-10-03T18:30:00.000Z", "2025-10-03", "14:30",
      "America/New_York", "15"⟩ (localMs 2025 10 3 14 15) = false := by
  refine ⟨?_, by decide, by decide⟩
  intro td now u n hu hn
  have hts : td.startTimestampUTC ≠ "" := by
    intro h
    rw [h] at hu
    exact Option.noConfusion hu
  unfold shouldNotifyNow resolveTaskInstant
  rw [if_pos hts, hu, hn]
  show (if n = 0 then decide (now / 60000 = u / 60000)
        else decide (now / 60000 = (u - n * 60000) / 60000)) = true ↔ _
  by_cases h0 : n = 0
  · subst h0
    rw [if_pos rfl]
    simp [decide_eq_true_eq]
  · rw [if_neg h0]
    simp [decide_eq_true_eq]

/-- Witness for C1 at the concrete moment of the claim. -/
theorem claim_C1_witness :
    parseISOChars ("2025-10-03T18:30:00.000Z" : String).toList
      = some (localMs 2025 10 3 18 30) ∧
    parseIntJS ("15") = some 15 ∧
    (shouldNotifyNow ⟨"2025-10-03T18:30:00.000Z", "2025-10-03", "14:30",
        "America/New_York", "15"⟩ (localMs 2025 10 3 18 15) = true ↔
      localMs 2025 10 3 18 15 / 60000
        = (localMs 2025 10 3 18 30 - 15 * 60000) / 60000) :=
  ⟨by decide, by decide,
    claim_C1_shouldNotifyNow.1 _ (localMs 2025 10 3 18 15) (localMs 2025 10 3 18 30) 15
      (by decide) (by decide)⟩

/-- C2 counterexample: a moment with no UTC timestamp whose cached
draft fields form a complete valid wall clock DOES fire a
notification: the code intentionally falls back to interpreting the
legacy localDate/localTime pair in the stored zone, so the claim that
every moment without instantUTC never fires is false. -/
theorem claim_C2_counterexample :
    shouldNotifyNow ⟨"", "2025-10-03", "14:30", "America/New_York", "15"⟩
      (localMs 2025 10 3 18 15) = true := by
  decide

/-- C2 amended: with instantUTC absent, shouldNotifyNow returns false
(and is total, hence never throws) whenever the cached
localDate/localTime pair does not resolve to an instant in the stored
zone; in particular a draft with localTime absent never fires, for any
nowUTC.  When the cached pair does resolve, the code deliberately
falls back to it (legacy-record support of the dual-format reader). -/
theorem claim_C2_amended :
    (∀ (td : TaskData) (now : Int), td.startTimestampUTC = "" →
      resolveTaskInstant td now = none → shouldNotifyNow td now = false) ∧
    (∀ now : Int,
      shouldNotifyNow ⟨"", "2025-10-03", "", "America/New_York", "15"⟩ now = false) := by
  constructor
  · intro td now h1 h2
    unfold shouldNotifyNow
    rw [h2]
  · intro now
    rfl

/-- Witness for the amended C2: the localTime-absent draft of P8. -/
theorem claim_C2_witness :
    (⟨"", "2025-10-03", "", "America/New_York", "15"⟩ : TaskData).startTimestampUTC = ""
    ∧ resolveTaskInstant ⟨"", "2025-10-03", "", "America/New_York", "15"⟩ 0 = none
    ∧ shouldNotifyNow ⟨"", "2025-10-03", "", "America/New_York", "15"⟩ 0 = false :=
  ⟨rfl, by decide, claim_C2_amended.1 _ 0 rfl (by decide)⟩

/-- Branch equation of taskUpdate: a datetime-field edit recomputes
the timestamp from the merged wall clock. -/
theorem taskUpdate_branch1 (cur : TaskRecord) (ch : TaskChanges) (now : Int)
    (h : ch.startDateISO.isSome ∨ ch.startTime.isSome ∨ ch.timeZone.isSome) :
    taskUpdate cur ch now
      = ⟨(if ch.startDateISO.getD cur.startDateISO ≠ ""
            ∧ ch.startTime.getD cur.startTime ≠ "" then
          toUTCTimestamp (ch.startDateISO.getD cur.startDateISO)
            (ch.startTime.getD cur.startTime) (ch.timeZone.getD cur.timeZone) now
          else ""),
        ch.startDateISO.getD cur.startDateISO, ch.startTime.getD cur.startTime,
        ch.timeZone.getD cur.timeZone⟩ := by
  unfold taskUpdate
  rw [if_pos h]

/-- Branch equation of taskUpdate: a timestamp-only update refreshes
the cached fields from the supplied timestamp. -/
theorem taskUpdate_branch2 (cur : TaskRecord) (ch : TaskChanges) (now : Int)
    (h1 : ¬(ch.startDateISO.isSome ∨ ch.startTime.isSome ∨ ch.timeZone.isSome))
    (h2 : ch.startTimestampUTC.getD ("") ≠ "") :
    taskUpdate cur ch now
      = ⟨ch.startTimestampUTC.getD (""),
        (fromUTCTimestamp (ch.startTimestampUTC.getD ("")) cur.timeZone).dateISO,
        (fromUTCTimestamp (ch.startTimestampUTC.getD ("")) cur.timeZone).time,
        cur.timeZone⟩ := by
  unfold taskUpdate
  rw [if_neg h1, if_pos h2]

/-- Branch equation of taskUpdate: no datetime edit and no truthy
timestamp pass the changes through. -/
theorem taskUpdate_branch3 (cur : TaskRecord) (ch : TaskChanges) (now : Int)
    (h1 : ¬(ch.startDateISO.isSome ∨ ch.startTime.isSome ∨ ch.timeZone.isSome))
    (h2 : ¬ch.startTimestampUTC.getD ("") ≠ "") :
    taskUpdate cur ch now
      = ⟨ch.startTimestampUTC.getD cur.startTimestampUTC, cur.startDateISO,
        cur.startTime, cur.timeZone⟩ := by
  unfold taskUpdate
  rw [if_neg h1, if_neg h2]

/-- C9: the datetime dual-write of Task.update is idempotent: applying
the same keyValueChanges to an already-reconciled record is a no-op,
so re-running the recomputation never changes a consistent record
(last-write-wins is a sound resolution policy for it). -/
theorem claim_C9_idempotent (cur : TaskRecord) (ch : TaskChanges) (now : Int) :
    taskUpdate (taskUpdate cur ch now) ch now = taskUpdate cur ch now := by
  have hgd : ∀ (o : Option String) (x : String), o.getD (o.getD x) = o.getD x := by
    intro o x; cases o <;> rfl
  by_cases h1 : (ch.startDateISO.isSome ∨ ch.startTime.isSome ∨ ch.timeZone.isSome)
  · rw [taskUpdate_branch1 cur ch now h1, taskUpdate_branch1 _ ch now h1]
    simp only [hgd]
  · by_cases h2 : ch.startTimestampUTC.getD ("") ≠ ""
    · rw [taskUpdate_branch2 cur ch now h1 h2, taskUpdate_branch2 _ ch now h1 h2]
    · rw [taskUpdate_branch3 cur ch now h1 h2, taskUpdate_branch3 _ ch now h1 h2]
      simp only [hgd]

/-- C3 counterexample: Task.create on the spring-forward gap input
2025-03-09 02:30 America/New_York stores a nonempty UTC timestamp
(07:30Z) while keeping the entered nonexistent wall clock in the
cached fields; projecting the timestamp back yields 03:30, not the
stored 02:30, so invariant I1 does not hold for this reconciled
moment and the claim fails on DST-gap inputs. -/
theorem claim_C3_counterexample :
    (taskCreate ⟨"", "2025-03-09", "02:30", "America/New_York"⟩ 0).startTimestampUTC ≠ ""
    ∧ fromUTCTimestamp
        (taskCreate ⟨"", "2025-03-09", "02:30", "America/New_York"⟩ 0).startTimestampUTC
        (taskCreate ⟨"", "2025-03-09", "02:30", "America/New_York"⟩ 0).timeZone
      ≠ ⟨(taskCreate ⟨"", "2025-03-09", "02:30", "America/New_York"⟩ 0).startDateISO,
        (taskCreate ⟨"", "2025-03-09", "02:30", "America/New_York"⟩ 0).startTime⟩ := by
  constructor <;> decide

/-- C3 amended: invariant I1 holds for the records the dual write
produces whenever the edited wall clock resolves to at least one
instant in its zone (it is not in a DST spring-forward gap; fall-back
overlaps are included, since either occurrence projects back onto the
same wall clock): on Task.create computing the timestamp from a
complete wall clock, on Task.update recomputing it after a date, time
or zone edit, and unconditionally on the timestamp-only Task.update
path, which refreshes the cached fields from the timestamp; for a
DST-gap wall clock the cached fields keep the entered nonexistent
time while the projection yields the gap-shifted time, so I1 fails
there (see the counterexample). -/
theorem claim_C3_amended :
    (∀ (y m d hh mi : Int) (tz : String) (z : ZoneInfo) (now : Int),
      findZone tz = some z → ValidCivil y m d → 1 ≤ y → y ≤ 9998 →
      0 ≤ hh → hh ≤ 23 → 0 ≤ mi → mi ≤ 59 →
      (∃ u, u + z.offsetAt u * 60000 = localMs y m d hh mi) →
      I1Holds (taskCreate ⟨"", fmtDateStr y m d, fmtTimeStr hh mi, tz⟩ now)) ∧
    (∀ (cur : TaskRecord) (ch : TaskChanges) (y m d hh mi : Int) (tz : String)
      (z : ZoneInfo) (now : Int),
      (ch.startDateISO.isSome ∨ ch.startTime.isSome ∨ ch.timeZone.isSome) →
      ch.startDateISO.getD cur.startDateISO = fmtDateStr y m d →
      ch.startTime.getD cur.startTime = fmtTimeStr hh mi →
      ch.timeZone.getD cur.timeZone = tz →
      findZone tz = some z → ValidCivil y m d → 1 ≤ y → y ≤ 9998 →
      0 ≤ hh → hh ≤ 23 → 0 ≤ mi → mi ≤ 59 →
      (∃ u, u + z.offsetAt u * 60000 = localMs y m d hh mi) →
      I1Holds (taskUpdate cur ch now)) ∧
    (∀ (cur : TaskRecord) (ts : String) (now : Int),
      I1Holds (taskUpdate cur ⟨some ts, none, none, none⟩ now)) := by
  refine ⟨?_, ?_, ?_⟩
  · intro y m d hh mi tz z now hz hv hy1 hy2 hh0 hh23 hmi0 hmi59 hex
    obtain ⟨a, b, h2, ha1, ha2, hb1, hb2⟩ := findZone_two_valued tz z hz
    have hrt := roundtrip_zone tz z a b hz h2 ha1 ha2 hb1 hb2 y m d hh mi now hv hy1 hy2
      hh0 hh23 hmi0 hmi59 hex
    have hde : fmtDateStr y m d ≠ "" := by
      unfold fmtDateStr pad4; exact mk_ne_empty _ _
    have hte : fmtTimeStr hh mi ≠ "" := by
      unfold fmtTimeStr pad2; exact mk_ne_empty _ _
    have hcreate : taskCreate ⟨"", fmtDateStr y m d, fmtTimeStr hh mi, tz⟩ now
        = ⟨toUTCTimestamp (fmtDateStr y m d) (fmtTimeStr hh mi) tz now,
          fmtDateStr y m d, fmtTimeStr hh mi, tz⟩ := by
      unfold taskCreate
      split_ifs with hA
      · dsimp only
        rw [if_neg (fun hx => hde hx.2)]
      · exact absurd ⟨hde, hte, rfl⟩ hA
    rw [hcreate]
    intro hne
    exact hrt
  · intro cur ch y m d hh mi tz z now h1 hd ht htz hz hv hy1 hy2 hh0 hh23 hmi0 hmi59 hex
    obtain ⟨a, b, h2, ha1, ha2, hb1, hb2⟩ := findZone_two_valued tz z hz
    have hrt := roundtrip_zone tz z a b hz h2 ha1 ha2 hb1 hb2 y m d hh mi now hv hy1 hy2
      hh0 hh23 hmi0 hmi59 hex
    have hde : fmtDateStr y m d ≠ "" := by
      unfold fmtDateStr pad4; exact mk_ne_empty _ _
    have hte : fmtTimeStr hh mi ≠ "" := by
      unfold fmtTimeStr pad2; exact mk_ne_empty _ _
    rw [taskUpdate_branch1 cur ch now h1, hd, ht, htz, if_pos ⟨hde, hte⟩]
    intro hne
    exact hrt
  · intro cur ts now
    by_cases hts : ts = ""
    · subst hts
      have hb3 : taskUpdate cur ⟨some "", none, none, none⟩ now
          = ⟨"", cur.startDateISO, cur.startTime, cur.timeZone⟩ :=
        taskUpdate_branch3 cur ⟨some "", none, none, none⟩ now (by simp) (by simp)
      rw [hb3]
      intro hne
      exact absurd rfl hne
    · have hb2 : taskUpdate cur ⟨some ts, none, none, none⟩ now
          = ⟨ts, (fromUTCTimestamp ts cur.timeZone).dateISO,
            (fromUTCTimestamp ts cur.timeZone).time, cur.timeZone⟩ :=
        taskUpdate_branch2 cur ⟨some ts, none, none, none⟩ now (by simp) hts
      rw [hb2]
      intro hne
      rfl

/-- Witness for the amended C3 at 2025-10-03 14:30 America/New_York
(create path and the datetime-edit update path, with the explicit
preimage instant 2025-10-03 18:30 UTC) and a timestamp-only update. -/
theorem claim_C3_witness :
    (∃ u, u + nyZone.offsetAt u * 60000 = localMs 2025 10 3 14 30) ∧
    I1Holds (taskCreate ⟨"", fmtDateStr 2025 10 3, fmtTimeStr 14 30,
      "America/New_York"⟩ 0) ∧
    I1Holds (taskUpdate ⟨"", "", "", "UTC"⟩
      ⟨none, some (fmtDateStr 2025 10 3), some (fmtTimeStr 14 30),
        some ("America/New_York")⟩ 0) ∧
    I1Holds (taskUpdate ⟨"", "", "", "UTC"⟩
      ⟨some ("2025-10-03T18:30:00.000Z"), none, none, none⟩ 0) := by
  have hex : ∃ u, u + nyZone.offsetAt u * 60000 = localMs 2025 10 3 14 30 :=
    ⟨localMs 2025 10 3 18 30, by decide⟩
  exact ⟨hex,
    claim_C3_amended.1 2025 10 3 14 30 ("America/New_York") nyZone 0 rfl (by decide)
      (by norm_num) (by norm_num) (by norm_num) (by norm_num) (by norm_num) (by norm_num)
      hex,
    claim_C3_amended.2.1 ⟨"", "", "", "UTC"⟩
      ⟨none, some (fmtDateStr 2025 10 3), some (fmtTimeStr 14 30),
        some ("America/New_York")⟩ 2025 10 3 14 30 ("America/New_York") nyZone 0
      (Or.inl rfl) rfl rfl rfl rfl (by decide) (by norm_num) (by norm_num) (by norm_num)
      (by norm_num) (by norm_num) (by norm_num) hex,
    claim_C3_amended.2.2 ⟨"", "", "", "UTC"⟩ ("2025-10-03T18:30:00.000Z") 0⟩
end ActionsLife
